import Mathlib

/-!
Shallow embedding of the trade decision and position lifecycle engine
(backend/data_layer/slippage.py, backend/models/friction_model.py,
backend/decision/{ev_calculator,sizing,exit_logic,entry_logic}.py,
backend/engine_live/{state,exits}.py,
backend/sandbox/{sim_state,sim_executor}.py).

Python floats are modelled as rationals; a Python float division is
modelled by `pydiv`, which returns an error exactly when the divisor is
zero (Python raises ZeroDivisionError there).  Methods that mutate
`self` are modelled by explicit state passing; a method that can raise
after having already mutated its state returns the (possibly corrupted)
state alongside an `Except` result.
-/

/-- Python float division: raises (returns an error) on a zero divisor. -/
def pydiv (a b : ℚ) : Except Unit ℚ :=
  if b = 0 then .error () else .ok (a / b)

/-! ## data_layer/slippage.py -/

/-- Embedding of `calculate_base_slippage` (slippage.py lines 9-45).
Zero reserves short-circuit to the fixed 0.1 guard; otherwise the
constant-product output amount and the price-impact ratio are computed,
each division modelled by `pydiv`. -/
def calculate_base_slippage (amount_in reserve_in reserve_out fee_bps : ℚ) :
    Except Unit ℚ :=
  if reserve_in = 0 ∨ reserve_out = 0 then .ok (1/10)
  else
    let fee_multiplier := 1 - fee_bps / 10000
    let amount_in_after_fee := amount_in * fee_multiplier
    do
      let amount_out ← pydiv (reserve_out * amount_in_after_fee)
        (reserve_in + amount_in_after_fee)
      let expected_price ← pydiv reserve_out reserve_in
      let actual_price ← pydiv amount_out amount_in
      pydiv |expected_price - actual_price| expected_price

/-- Embedding of `calculate_fee` (slippage.py lines 48-58). -/
def calculate_fee (amount fee_bps : ℚ) : ℚ :=
  amount * (fee_bps / 10000)

/-- Embedding of `calculate_base_friction` (slippage.py lines 61-84):
slippage plus the flat fee fraction. -/
def calculate_base_friction (amount_in reserve_in reserve_out fee_bps : ℚ) :
    Except Unit ℚ := do
  let slippage ← calculate_base_slippage amount_in reserve_in reserve_out fee_bps
  let fee_pct := fee_bps / 10000
  return slippage + fee_pct

/-! ## models/friction_model.py -/

/-- Embedding of `FrictionModel.predict_friction` (friction_model.py lines
40-76).  The pickled model is an opaque scoring function that may raise;
`none` models an absent model (`self.model is None`).  The clamp
`max(0.0, min(friction, 0.1))` is applied only on the success path; both
the absent-model branch and the exception handler return `base_friction`
unchanged. -/
def predict_friction (model : Option (ℚ → ℚ → ℚ → ℚ → Except Unit ℚ))
    (order_size liquidity volatility base_friction : ℚ) : ℚ :=
  match model with
  | none => base_friction
  | some m =>
    match m order_size liquidity volatility base_friction with
    | .error _ => base_friction
    | .ok prediction => max 0 (min prediction (1/10))

/-! ## decision/ev_calculator.py -/

/-- Embedding of `EVCalculator.calculate_ev` (ev_calculator.py lines
12-43).  The Python `-float("inf")` sentinel for negative win/loss
amounts is modelled by the bottom element of `WithBot ℚ`. -/
def calculate_ev (p win_amount loss_amount friction : ℚ) : WithBot ℚ :=
  let p := if 0 ≤ p ∧ p ≤ 1 then p else max 0 (min 1 p)
  if win_amount < 0 ∨ loss_amount < 0 then ⊥
  else ((p * win_amount - (1 - p) * loss_amount - friction : ℚ) : WithBot ℚ)

/-- Embedding of `EVCalculator.calculate_ev_from_sl_tp` (ev_calculator.py
lines 45-88), dropping the debug-info dictionary. -/
def calculate_ev_from_sl_tp (p entry_price sl_pct tp_pct position_size friction : ℚ) :
    WithBot ℚ :=
  let _sl_price := entry_price * (1 - sl_pct)
  let _tp_price := entry_price * (1 + tp_pct)
  let loss_amount := position_size * sl_pct
  let win_amount := position_size * tp_pct
  let friction_cost := position_size * friction
  calculate_ev p win_amount loss_amount friction_cost

/-! ## decision/sizing.py -/

/-- Embedding of `PositionSizer.calculate_position_size` (sizing.py lines
22-57); the three constructor-loaded config fields are explicit
arguments. -/
def calculate_position_size (max_risk_per_trade min_position_pct max_position_pct
    capital stop_loss_pct : ℚ) : ℚ :=
  if stop_loss_pct ≤ 0 then 0
  else
    let risk_amount := capital * max_risk_per_trade
    let position_size := risk_amount / stop_loss_pct
    let min_size := capital * min_position_pct
    let max_size := capital * max_position_pct
    if position_size < min_size then min_size
    else if position_size > max_size then max_size
    else position_size

/-! ## decision/exit_logic.py -/

/-- A position dictionary as read by `ExitLogic.check_exits`: every field
is fetched with `.get`, hence optional. -/
structure PyPosition where
  id : Option String
  pair : Option String
  entry_price : Option ℚ
  stop_loss_pct : Option ℚ
  take_profit_pct : Option ℚ
deriving DecidableEq

/-- Embedding of the dataclass `ClosePositionAction` (actions.py lines
23-32); `position_id` and `pair` come from `.get` calls in exit_logic.py
and so are optional there. -/
structure ClosePositionAction where
  position_id : Option String
  pair : Option String
  reason : String
  exit_price : ℚ
deriving DecidableEq

/-- Python truthiness test `if sl_pct and ...`: an absent value or the
float 0.0 is falsy. -/
def float_truthy : Option ℚ → Bool
  | none => false
  | some v => v ≠ 0

/-- The stop-loss guard of exit_logic.py line 53:
`sl_pct and current_price <= entry_price * (1 - sl_pct)`. -/
def sl_trigger (sl_pct : Option ℚ) (current_price entry_price : ℚ) : Bool :=
  match sl_pct with
  | none => false
  | some s => if s = 0 then false else current_price ≤ entry_price * (1 - s)

/-- The take-profit guard of exit_logic.py line 64:
`tp_pct and current_price >= entry_price * (1 + tp_pct)`. -/
def tp_trigger (tp_pct : Option ℚ) (current_price entry_price : ℚ) : Bool :=
  match tp_pct with
  | none => false
  | some t => if t = 0 then false else entry_price * (1 + t) ≤ current_price

/-- One iteration of the loop body of `ExitLogic.check_exits`
(exit_logic.py lines 42-84): at most one action per position, stop loss
checked first, then take profit, then regime change; positions lacking a
price or entry are skipped. -/
def check_exit_position (current_prices : String → Option ℚ)
    (regime_changes : String → Option String) (position : PyPosition) :
    Option ClosePositionAction :=
  let symbol := position.pair
  let current_price := symbol.bind current_prices
  match current_price, position.entry_price with
  | some cp, some ep =>
    if sl_trigger position.stop_loss_pct cp ep then
      some ⟨position.id, symbol, "STOP_LOSS", cp⟩
    else if tp_trigger position.take_profit_pct cp ep then
      some ⟨position.id, symbol, "TAKE_PROFIT", cp⟩
    else if symbol.bind regime_changes = some "NO_TRADE" then
      some ⟨position.id, symbol, "REGIME_CHANGE", cp⟩
    else none
  | _, _ => none

/-- Embedding of `ExitLogic.check_exits` (exit_logic.py lines 24-86): the
accumulating loop is a `filterMap` of the per-position body. -/
def check_exits (current_prices : String → Option ℚ)
    (regime_changes : String → Option String)
    (open_positions : List PyPosition) : List ClosePositionAction :=
  open_positions.filterMap (check_exit_position current_prices regime_changes)

/-! ## decision/regime_logic.py and decision/entry_logic.py -/

/-- Embedding of `RegimeClassifier.is_tradable` (regime_logic.py lines
73-82). -/
def is_tradable (regime : String) : Bool :=
  ["TREND", "RANGE"].contains regime

/-- Embedding of the dataclass `OpenPositionAction` (actions.py lines
7-20) as populated by `EntryLogic.evaluate_entry`; the debug-info
metadata dictionary is dropped, and `ev` keeps the `WithBot` sentinel of
`calculate_ev`. -/
structure OpenPositionAction where
  pair : String
  size : ℚ
  entry_price : ℚ
  stop_loss_pct : ℚ
  take_profit_pct : ℚ
  ev : WithBot ℚ
  p : ℚ
  friction : ℚ
  regime : String
deriving DecidableEq

/-- Embedding of `EntryLogic.evaluate_entry` (entry_logic.py lines
49-143).  Collaborator calls are explicit arguments: `regime` is the
result of `classify_regime` (which never raises), `features` the result
of `build_features`, `predict_edge` the edge model call (which catches
internally and never raises), `fm` the friction model, and `volatility`
the computed standard deviation.  Config lookups (`sl_range.default`,
`tp_range.default`, `ev.min_ev` and the sizer fields) are arguments.
The surrounding `try/except` turns a raising step — only the
`calculate_base_friction` call can raise — into `none`. -/
def evaluate_entry {F : Type}
    (max_risk_per_trade min_position_pct max_position_pct : ℚ)
    (sl_default tp_default min_ev : ℚ)
    (fm : Option (ℚ → ℚ → ℚ → ℚ → Except Unit ℚ))
    (predict_edge : F → ℚ) (regime : String) (features : Option F)
    (symbol : String) (price : ℚ) (reserves : ℚ × ℚ) (capital : ℚ)
    (volatility : ℚ) : Option OpenPositionAction :=
  if is_tradable regime = false then none
  else
    match features with
    | none => none
    | some f =>
      let p := predict_edge f
      let sl_pct := sl_default
      let tp_pct := tp_default
      let position_size := calculate_position_size max_risk_per_trade
        min_position_pct max_position_pct capital sl_pct
      match calculate_base_friction position_size reserves.1 reserves.2 30 with
      | .error _ => none
      | .ok base_friction =>
        let liquidity := reserves.1 * price + reserves.2
        let friction := predict_friction fm position_size liquidity volatility
          base_friction
        let ev := calculate_ev_from_sl_tp p price sl_pct tp_pct position_size
          friction
        if ev < (min_ev : WithBot ℚ) then none
        else some ⟨symbol, position_size, price, sl_pct, tp_pct, ev, p,
          friction, regime⟩

/-! ## engine_live/state.py -/

/-- Association-list model of a Python dict: lookup by key. -/
def dictGet {α : Type} (m : List (String × α)) (k : String) : Option α :=
  match m with
  | [] => none
  | (k', v) :: rest => if k' = k then some v else dictGet rest k

/-- Association-list model of Python dict assignment `m[k] = v`: replace
in place when the key exists, append otherwise. -/
def dictSet {α : Type} (m : List (String × α)) (k : String) (v : α) :
    List (String × α) :=
  match m with
  | [] => [(k, v)]
  | (k', v') :: rest =>
    if k' = k then (k, v) :: rest else (k', v') :: dictSet rest k v

/-- Association-list model of `m.pop(k, None)`'s removal effect. -/
def dictRemove {α : Type} (m : List (String × α)) (k : String) :
    List (String × α) :=
  match m with
  | [] => []
  | (k', v') :: rest =>
    if k' = k then rest else (k', v') :: dictRemove rest k

/-- Embedding of `EngineState` (state.py lines 10-19); `datetime` values
are rationals (seconds), positions are kept abstract since the cooldown
claims do not touch them. -/
structure EngineState where
  open_positions : List (String × PyPosition)
  cooldowns : List (String × ℚ)
  trades_today : ℕ
  last_trade_time : Option ℚ
  daily_pnl : ℚ

/-- Embedding of `EngineState.is_in_cooldown` (state.py lines 59-74) with
`datetime.now()` passed explicitly as `now`. -/
def is_in_cooldown (s : EngineState) (pair : String) (cooldown_seconds : ℚ)
    (now : ℚ) : Bool :=
  match dictGet s.cooldowns pair with
  | none => false
  | some last_trade => now - last_trade < cooldown_seconds

/-- Embedding of `EngineState.set_cooldown` (state.py lines 76-82) with
`datetime.now()` passed explicitly as `now`. -/
def set_cooldown (s : EngineState) (pair : String) (now : ℚ) : EngineState :=
  { s with cooldowns := dictSet s.cooldowns pair now }

/-! ## engine_live/exits.py -/

/-- Embedding of `ExitDetector.check_stop_loss` (exits.py lines 24-54).
Unlike `ExitLogic.check_exits` there is no truthiness guard: only a
missing entry price or missing stop-loss fraction skips the check. -/
def check_stop_loss (position : PyPosition) (current_price : ℚ) :
    Option ClosePositionAction :=
  match position.entry_price, position.stop_loss_pct with
  | some entry_price, some sl_pct =>
    if current_price ≤ entry_price * (1 - sl_pct) then
      some ⟨position.id, position.pair, "STOP_LOSS", current_price⟩
    else none
  | _, _ => none

/-- Embedding of `ExitDetector.check_take_profit` (exits.py lines
56-86). -/
def check_take_profit (position : PyPosition) (current_price : ℚ) :
    Option ClosePositionAction :=
  match position.entry_price, position.take_profit_pct with
  | some entry_price, some tp_pct =>
    if entry_price * (1 + tp_pct) ≤ current_price then
      some ⟨position.id, position.pair, "TAKE_PROFIT", current_price⟩
    else none
  | _, _ => none

/-- One iteration of the loop body of `ExitDetector.check_all_exits`
(exits.py lines 102-118): skip on missing price, stop loss first, take
profit second — there is no regime-reversal branch. -/
def detector_exit (current_prices : String → Option ℚ)
    (position : PyPosition) : Option ClosePositionAction :=
  match position.pair.bind current_prices with
  | none => none
  | some current_price =>
    match check_stop_loss position current_price with
    | some sl_action => some sl_action
    | none => check_take_profit position current_price

/-- Embedding of `ExitDetector.check_all_exits` (exits.py lines 88-120),
iterating over the id-keyed open positions of the engine state. -/
def check_all_exits (current_prices : String → Option ℚ)
    (s : EngineState) : List ClosePositionAction :=
  s.open_positions.filterMap (fun e => detector_exit current_prices e.2)

/-! ## sandbox/sim_state.py and sandbox/sim_executor.py -/

/-- The position dictionary built by `SimExecutor.execute_open`
(sim_executor.py lines 58-68); the audit fields mirror the optional
dataclass fields of `SimOpenAction`. -/
structure SimPosition where
  id : String
  pair : String
  entry_price : ℚ
  size : ℚ
  stop_loss_pct : ℚ
  take_profit_pct : ℚ
  ev : Option ℚ
  p : Option ℚ
  regime : Option String
deriving DecidableEq

/-- The closed-trade dictionary `{**position, exit_price, pnl, pnl_pct}`
of sim_state.py lines 59-64. -/
structure SimTrade where
  position : SimPosition
  exit_price : ℚ
  pnl : ℚ
  pnl_pct : ℚ
deriving DecidableEq

/-- Embedding of `SimulatedState` (sim_state.py lines 9-22). -/
structure SimulatedState where
  initial_balance : ℚ
  balance : ℚ
  open_positions : List (String × SimPosition)
  closed_trades : List SimTrade
  total_pnl : ℚ
deriving DecidableEq

/-- The `SimulatedState.__init__` constructor. -/
def SimulatedState.init (initial_balance : ℚ) : SimulatedState :=
  ⟨initial_balance, initial_balance, [], [], 0⟩

/-- Embedding of `SimulatedState.add_position` (sim_state.py lines
24-32): dict assignment, then `balance -= position.get("size", 0.0)`. -/
def add_position (s : SimulatedState) (position_id : String)
    (position : SimPosition) : SimulatedState :=
  { s with open_positions := dictSet s.open_positions position_id position,
           balance := s.balance - position.size }

/-- Embedding of `SimulatedState.close_position` (sim_state.py lines
34-67).  The `pop` is modelled by `dictGet`/`dictRemove`; the `pnl_pct`
division raises when `entry_price = 0`, and since in Python that
exception propagates after the `pop` but before the balance update, the
error case returns the state with the position already removed. -/
def close_position (s : SimulatedState) (position_id : String)
    (exit_price : ℚ) : Except Unit (Option SimTrade) × SimulatedState :=
  match dictGet s.open_positions position_id with
  | none => (.ok none, s)
  | some position =>
    let popped := dictRemove s.open_positions position_id
    let entry_price := position.entry_price
    let size := position.size
    let pnl := (exit_price - entry_price) * size
    match pydiv exit_price entry_price with
    | .error e => (.error e, { s with open_positions := popped })
    | .ok price_quot =>
      let pnl_pct := price_quot - 1
      let trade : SimTrade := ⟨position, exit_price, pnl, pnl_pct⟩
      (.ok (some trade),
        { s with open_positions := popped,
                 balance := s.balance + size + pnl,
                 total_pnl := s.total_pnl + pnl,
                 closed_trades := s.closed_trades ++ [trade] })

/-- Embedding of the dataclass `SimOpenAction` (sim_actions.py lines
7-20), metadata dropped. -/
structure SimOpenAction where
  pair : String
  size : ℚ
  entry_price : ℚ
  stop_loss_pct : ℚ
  take_profit_pct : ℚ
  ev : Option ℚ
  p : Option ℚ
  friction : Option ℚ
  regime : Option String
deriving DecidableEq

/-- Embedding of the dataclass `SimCloseAction` (sim_actions.py lines
23-32), metadata dropped. -/
structure SimCloseAction where
  position_id : String
  pair : String
  reason : String
  exit_price : ℚ
deriving DecidableEq

/-- Embedding of `SimExecutor.execute_open` (sim_executor.py lines
26-72); `apply_slippage` is the constructor flag, the uncaught
`calculate_base_friction` exception is the error case. -/
def execute_open (apply_slippage : Bool) (s : SimulatedState)
    (action : SimOpenAction) (reserves : ℚ × ℚ) (position_id : String) :
    Except Unit Bool × SimulatedState :=
  if s.balance < action.size then (.ok false, s)
  else
    let entry : Except Unit ℚ :=
      if apply_slippage then
        (calculate_base_friction action.size reserves.1 reserves.2 30).map
          (fun friction => action.entry_price * (1 + friction))
      else .ok action.entry_price
    match entry with
    | .error e => (.error e, s)
    | .ok entry_price =>
      let position : SimPosition := ⟨position_id, action.pair, entry_price,
        action.size, action.stop_loss_pct, action.take_profit_pct,
        action.ev, action.p, action.regime⟩
      (.ok true, add_position s position_id position)

/-- Embedding of `SimExecutor.execute_close` (sim_executor.py lines
74-106). -/
def execute_close (apply_slippage : Bool) (s : SimulatedState)
    (action : SimCloseAction) (reserves : ℚ × ℚ) :
    Except Unit (Option SimTrade) × SimulatedState :=
  let exit : Except Unit ℚ :=
    if apply_slippage then
      match dictGet s.open_positions action.position_id with
      | some position =>
        (calculate_base_friction position.size reserves.1 reserves.2 30).map
          (fun friction => action.exit_price * (1 - friction))
      | none => .ok action.exit_price
    else .ok action.exit_price
  match exit with
  | .error e => (.error e, s)
  | .ok exit_price => close_position s action.position_id exit_price

/-! ## Operation sequences over the simulated portfolio -/

/-- One bookkeeping operation on `SimulatedState`. -/
inductive SimOp where
  | add (position_id : String) (position : SimPosition)
  | close (position_id : String) (exit_price : ℚ)
deriving DecidableEq

/-- Apply one operation; a close that raises leaves the state the
exception left behind. -/
def applyOp (s : SimulatedState) : SimOp → SimulatedState
  | .add pid pos => add_position s pid pos
  | .close pid ep => (close_position s pid ep).2

/-- Apply a sequence of operations in order. -/
def applyOps (s : SimulatedState) (ops : List SimOp) : SimulatedState :=
  ops.foldl applyOp s

/-- Sum of the sizes of the currently open positions. -/
def sumOpenSizes (m : List (String × SimPosition)) : ℚ :=
  (m.map (fun e => e.2.size)).sum

/-- The conservation equation of claim C10:
balance + sum of open sizes - total pnl = initial balance. -/
def sim_invariant (s : SimulatedState) : Prop :=
  s.balance + sumOpenSizes s.open_positions - s.total_pnl = s.initial_balance

instance (s : SimulatedState) : Decidable (sim_invariant s) := by
  unfold sim_invariant; infer_instance

/-- Side condition on one operation: an add must use an id that is not
currently open and a position with nonzero entry price (a zero entry
price makes `close_position` raise between the pop and the balance
update). -/
def okOp (s : SimulatedState) : SimOp → Bool
  | .add pid pos =>
    decide (dictGet s.open_positions pid = none) && decide (pos.entry_price ≠ 0)
  | .close _ _ => true

/-- Side conditions along a whole sequence of operations. -/
def okOps (s : SimulatedState) : List SimOp → Bool
  | [] => true
  | op :: rest => okOp s op && okOps (applyOp s op) rest

/-- All open positions have nonzero entry price (auxiliary invariant). -/
def entriesNonzero (s : SimulatedState) : Prop :=
  ∀ e ∈ s.open_positions, e.2.entry_price ≠ 0

/-! ## Helper lemmas -/

theorem dictGet_dictSet {α : Type} (m : List (String × α)) (k : String) (v : α) :
    dictGet (dictSet m k v) k = some v := by
  induction m with
  | nil => simp [dictSet, dictGet]
  | cons e rest ih =>
    obtain ⟨k', v'⟩ := e
    by_cases h : k' = k
    · simp [dictSet, dictGet, h]
    · simp [dictSet, dictGet, h, ih]

theorem dictGet_mem {α : Type} {m : List (String × α)} {k : String} {v : α}
    (h : dictGet m k = some v) : (k, v) ∈ m := by
  induction m with
  | nil => simp [dictGet] at h
  | cons e rest ih =>
    obtain ⟨k', v'⟩ := e
    by_cases hk : k' = k
    · simp [dictGet, hk] at h
      subst hk h
      exact List.mem_cons_self _ _
    · simp [dictGet, hk] at h
      exact List.mem_cons_of_mem _ (ih h)

theorem dictSet_of_fresh {α : Type} {m : List (String × α)} {k : String}
    (v : α) (h : dictGet m k = none) : dictSet m k v = m ++ [(k, v)] := by
  induction m with
  | nil => simp [dictSet]
  | cons e rest ih =>
    obtain ⟨k', v'⟩ := e
    by_cases hk : k' = k
    · simp [dictGet, hk] at h
    · simp [dictGet, hk] at h
      simp [dictSet, hk, ih h]

theorem mem_dictRemove {α : Type} {m : List (String × α)} {k : String}
    {e : String × α} (h : e ∈ dictRemove m k) : e ∈ m := by
  induction m with
  | nil => simp [dictRemove] at h
  | cons e' rest ih =>
    obtain ⟨k', v'⟩ := e'
    by_cases hk : k' = k
    · simp [dictRemove, hk] at h
      exact List.mem_cons_of_mem _ h
    · simp [dictRemove, hk] at h
      rcases h with h | h
      · simp [h]
      · exact List.mem_cons_of_mem _ (ih h)

theorem sumOpenSizes_append (m₁ m₂ : List (String × SimPosition)) :
    sumOpenSizes (m₁ ++ m₂) = sumOpenSizes m₁ + sumOpenSizes m₂ := by
  simp [sumOpenSizes]

theorem sumOpenSizes_dictRemove {m : List (String × SimPosition)} {k : String}
    {v : SimPosition} (h : dictGet m k = some v) :
    sumOpenSizes (dictRemove m k) = sumOpenSizes m - v.size := by
  induction m with
  | nil => simp [dictGet] at h
  | cons e rest ih =>
    obtain ⟨k', v'⟩ := e
    by_cases hk : k' = k
    · simp [dictGet, hk] at h
      subst h
      simp [dictRemove, hk, sumOpenSizes]
    · simp [dictGet, hk] at h
      simp [dictRemove, hk, sumOpenSizes] at ih ⊢
      rw [ih h]
      ring

/-! ## Claim theorems -/

/-- C1: the spec says `slippage(0, r_in, r_out, fee)` yields a friction
equal to the pure fee fraction with no failure mode besides the
zero-reserve guard, but the code divides `amount_out` by `amount_in`
without guarding `amount_in = 0`: with both reserves positive the call
raises ZeroDivisionError (the embedding returns an error), while the
zero-reserve guard itself works.  This theorem evaluates the code at the
failing input. -/
theorem calculate_base_friction_zero_amount_raises :
    calculate_base_friction 0 100 100 30 = .error () ∧
    calculate_base_slippage 0 100 100 30 = .error () ∧
    calculate_base_slippage 0 0 100 30 = .ok (1/10) ∧
    calculate_base_friction 0 0 100 30 = .ok (1/10 + 30/10000) := by
  refine ⟨?_, ?_, ?_, ?_⟩ <;>
    norm_num [calculate_base_friction, calculate_base_slippage, pydiv,
      Except.bind, bind, pure, Except.pure]

/-- C2 counterexample: with the predictor absent the fallback result is
`base_friction` itself, with no clamp applied, so the claimed bound
`result ≤ 0.10` fails at `base_friction = 1/5`. -/
theorem predict_friction_fallback_unclamped :
    predict_friction none 1 1 1 (1/5) = 1/5 ∧ ¬ ((1/5 : ℚ) ≤ 1/10) := by
  exact ⟨rfl, by norm_num⟩

/-- C2 amended: when the predictor is present and succeeds the refined
friction is clamped into [0, 0.10]; on predictor absence the result is
exactly the base friction, and on predictor failure it is also exactly
the base friction — in both fallback cases no clamp is applied. -/
theorem predict_friction_amended (order_size liquidity volatility base_friction : ℚ)
    (m : ℚ → ℚ → ℚ → ℚ → Except Unit ℚ) :
    (∀ v, m order_size liquidity volatility base_friction = .ok v →
      0 ≤ predict_friction (some m) order_size liquidity volatility base_friction ∧
      predict_friction (some m) order_size liquidity volatility base_friction ≤ 1/10) ∧
    predict_friction none order_size liquidity volatility base_friction = base_friction ∧
    (∀ e, m order_size liquidity volatility base_friction = .error e →
      predict_friction (some m) order_size liquidity volatility base_friction
        = base_friction) := by
  refine ⟨fun v hv => ?_, rfl, fun e he => ?_⟩
  · simp only [predict_friction, hv]
    constructor
    · exact le_max_left _ _
    · exact max_le (by norm_num) (min_le_right _ _)
  · simp only [predict_friction, he]

/-- C2 witness: the amended theorem applied to a predictor that returns
1/2; the clamped result lies in [0, 0.10]. -/
theorem predict_friction_amended_witness :
    0 ≤ predict_friction (some fun _ _ _ _ => Except.ok (1/2)) 1 2 3 4 ∧
    predict_friction (some fun _ _ _ _ => Except.ok (1/2)) 1 2 3 4 ≤ 1/10 :=
  (predict_friction_amended 1 2 3 4 (fun _ _ _ _ => Except.ok (1/2))).1 (1/2) rfl

/-- C4: for positive capital and a well-formed config
(`min_pct ≤ max_pct`) the computed position size lies between
`capital * min_pct` and `capital * max_pct` whenever `0 < sl_pct ≤ 1`,
and a non-positive stop loss yields size 0. -/
theorem calculate_position_size_bounds
    (max_risk_per_trade min_position_pct max_position_pct capital : ℚ)
    (hcap : 0 < capital) (hpct : min_position_pct ≤ max_position_pct) :
    (∀ sl_pct : ℚ, 0 < sl_pct → sl_pct ≤ 1 →
      capital * min_position_pct ≤
        calculate_position_size max_risk_per_trade min_position_pct
          max_position_pct capital sl_pct ∧
      calculate_position_size max_risk_per_trade min_position_pct
          max_position_pct capital sl_pct ≤ capital * max_position_pct) ∧
    (∀ sl_pct : ℚ, sl_pct ≤ 0 →
      calculate_position_size max_risk_per_trade min_position_pct
        max_position_pct capital sl_pct = 0) := by
  have hmm : capital * min_position_pct ≤ capital * max_position_pct :=
    mul_le_mul_of_nonneg_left hpct hcap.le
  constructor
  · intro sl_pct h1 _h2
    unfold calculate_position_size
    rw [if_neg (not_le.mpr h1)]
    simp only []
    split_ifs with hmin hmax
    · exact ⟨le_refl _, hmm⟩
    · exact ⟨hmm, le_refl _⟩
    · exact ⟨le_of_not_lt hmin, le_of_not_lt hmax⟩
  · intro sl_pct h
    unfold calculate_position_size
    rw [if_pos h]

/-- C4 witness: the spec's sizing scenario (capital 100000, risk 0.005,
sl 0.01, min 2%, max 5%) satisfies the bounds. -/
theorem calculate_position_size_bounds_witness :
    100000 * (1/50 : ℚ) ≤
      calculate_position_size (1/200) (1/50) (1/20) 100000 (1/100) ∧
    calculate_position_size (1/200) (1/50) (1/20) 100000 (1/100) ≤
      100000 * (1/20 : ℚ) :=
  (calculate_position_size_bounds (1/200) (1/50) (1/20) 100000 (by norm_num)
    (by norm_num)).1 (1/100) (by norm_num) (by norm_num)

/-- C8: a simulated open whose size exceeds the balance is rejected
(`.ok false`) with the state returned untouched — balance, open
positions, closed-trade ledger and cumulative PnL are all unchanged. -/
theorem execute_open_insufficient_balance (apply_slippage : Bool)
    (s : SimulatedState) (action : SimOpenAction) (reserves : ℚ × ℚ)
    (position_id : String) (h : s.balance < action.size) :
    execute_open apply_slippage s action reserves position_id = (.ok false, s) ∧
    (execute_open apply_slippage s action reserves position_id).2.balance
      = s.balance ∧
    (execute_open apply_slippage s action reserves position_id).2.open_positions
      = s.open_positions ∧
    (execute_open apply_slippage s action reserves position_id).2.closed_trades
      = s.closed_trades ∧
    (execute_open apply_slippage s action reserves position_id).2.total_pnl
      = s.total_pnl := by
  have hrun : execute_open apply_slippage s action reserves position_id
      = (.ok false, s) := by
    unfold execute_open
    rw [if_pos h]
  exact ⟨hrun, by rw [hrun], by rw [hrun], by rw [hrun], by rw [hrun]⟩

/-- C8 witness: balance 5, requested size 10. -/
theorem execute_open_insufficient_balance_witness :
    execute_open true (SimulatedState.init 5)
      ⟨"ETH", 10, 1, 1/100, 1/25, none, none, none, none⟩ (1, 1) "p1"
      = (.ok false, SimulatedState.init 5) :=
  (execute_open_insufficient_balance true (SimulatedState.init 5)
    ⟨"ETH", 10, 1, 1/100, 1/25, none, none, none, none⟩ (1, 1) "p1"
    (by norm_num [SimulatedState.init])).1

/-- C9: immediately after `set_cooldown` at time `t` the pair is in
cooldown for any positive window (elapsed 0 < window), and once `d ≥
window` seconds have elapsed the strict check `elapsed < window` makes
`is_in_cooldown` false. -/
theorem cooldown_window (s : EngineState) (pair : String) (window t d : ℚ)
    (hw : 0 < window) :
    is_in_cooldown (set_cooldown s pair t) pair window t = true ∧
    (window ≤ d →
      is_in_cooldown (set_cooldown s pair t) pair window (t + d) = false) := by
  constructor
  · simp only [is_in_cooldown, set_cooldown, dictGet_dictSet]
    simpa using hw
  · intro hd
    simp only [is_in_cooldown, set_cooldown, dictGet_dictSet]
    simp only [add_sub_cancel_left, decide_eq_false_iff_not, not_lt]
    exact hd

/-- C9 witness: a 60-second window set at time 0 is active at time 0 and
inactive at time 60. -/
theorem cooldown_window_witness :
    is_in_cooldown (set_cooldown ⟨[], [], 0, none, 0⟩ "ETH" 0) "ETH" 60 0 = true ∧
    is_in_cooldown (set_cooldown ⟨[], [], 0, none, 0⟩ "ETH" 0) "ETH" 60 (0 + 60)
      = false :=
  ⟨(cooldown_window ⟨[], [], 0, none, 0⟩ "ETH" 60 0 60 (by norm_num)).1,
   (cooldown_window ⟨[], [], 0, none, 0⟩ "ETH" 60 0 60 (by norm_num)).2 (by norm_num)⟩

/-- The clamped probability of `calculate_ev` in closed form. -/
theorem calculate_ev_eq (p win_amount loss_amount friction : ℚ) :
    calculate_ev p win_amount loss_amount friction =
      if win_amount < 0 ∨ loss_amount < 0 then ⊥
      else ((max 0 (min 1 p) * win_amount
        - (1 - max 0 (min 1 p)) * loss_amount - friction : ℚ) : WithBot ℚ) := by
  unfold calculate_ev
  by_cases h : 0 ≤ p ∧ p ≤ 1
  · have hp : max 0 (min 1 p) = p := by
      rw [min_eq_right h.2, max_eq_right h.1]
    simp only [if_pos h, hp]
  · simp only [if_neg h]

/-- Lower bound of the probability clamp. -/
theorem clamp01_nonneg (p : ℚ) : 0 ≤ max 0 (min 1 p) := le_max_left _ _

/-- Upper bound of the probability clamp. -/
theorem clamp01_le_one (p : ℚ) : max 0 (min 1 p) ≤ 1 :=
  max_le (by norm_num) (min_le_left _ _)

/-- Monotonicity of the probability clamp. -/
theorem clamp01_mono {p q : ℚ} (h : p ≤ q) :
    max 0 (min 1 p) ≤ max 0 (min 1 q) :=
  max_le_max le_rfl (min_le_min le_rfl h)

/-- C6 counterexample: `calculate_ev` is not monotonically decreasing in
the loss amount across the negative-amount branch: raising the loss
amount from -1 (which yields negative infinity) to 0 strictly increases
the EV, so the claimed antitonicity fails there. -/
theorem calculate_ev_not_antitone_in_loss :
    ((-1 : ℚ) ≤ 0) ∧
    ¬ (calculate_ev (1/2) 1 0 0 ≤ calculate_ev (1/2) 1 (-1) 0) := by
  constructor
  · norm_num
  · norm_num [calculate_ev]

/-- C6 amended: `calculate_ev` is monotonically increasing in `p` and in
the win amount and monotonically decreasing in friction, each across the
probability clamp and the negative-amount branch; it is monotonically
decreasing in the loss amount only on the non-negative loss domain
(for a negative loss amount the negative-infinity sentinel breaks
antitonicity, see the counterexample). -/
theorem calculate_ev_monotone :
    (∀ w l f p₁ p₂ : ℚ, p₁ ≤ p₂ →
      calculate_ev p₁ w l f ≤ calculate_ev p₂ w l f) ∧
    (∀ p l f w₁ w₂ : ℚ, w₁ ≤ w₂ →
      calculate_ev p w₁ l f ≤ calculate_ev p w₂ l f) ∧
    (∀ p w f l₁ l₂ : ℚ, 0 ≤ l₁ → l₁ ≤ l₂ →
      calculate_ev p w l₂ f ≤ calculate_ev p w l₁ f) ∧
    (∀ p w l f₁ f₂ : ℚ, f₁ ≤ f₂ →
      calculate_ev p w l f₂ ≤ calculate_ev p w l f₁) := by
  refine ⟨?_, ?_, ?_, ?_⟩
  · intro w l f p₁ p₂ h
    rw [calculate_ev_eq, calculate_ev_eq]
    split_ifs with hwl
    · exact le_refl ⊥
    · rw [WithBot.coe_le_coe]
      push_neg at hwl
      obtain ⟨hw, hl⟩ := hwl
      have hcm := clamp01_mono h
      nlinarith [mul_nonneg (sub_nonneg.mpr hcm) (add_nonneg hw hl)]
  · intro p l f w₁ w₂ h
    rw [calculate_ev_eq, calculate_ev_eq]
    split_ifs with h1 h2 h2
    · exact le_refl ⊥
    · exact bot_le
    · exfalso
      push_neg at h1
      rcases h2 with h2 | h2
      · exact absurd (lt_of_le_of_lt h h2) h1.1.not_lt
      · exact absurd h2 h1.2.not_lt
    · rw [WithBot.coe_le_coe]
      push_neg at h1
      nlinarith [mul_le_mul_of_nonneg_left h (clamp01_nonneg p)]
  · intro p w f l₁ l₂ h0 h
    rw [calculate_ev_eq, calculate_ev_eq]
    have hl₁ : ¬ (l₁ < 0) := not_lt.mpr h0
    have hl₂ : ¬ (l₂ < 0) := not_lt.mpr (h0.trans h)
    by_cases hw : w < 0
    · rw [if_pos (Or.inl hw), if_pos (Or.inl hw)]
    · rw [if_neg (by tauto), if_neg (by tauto)]
      rw [WithBot.coe_le_coe]
      have h1c : (0:ℚ) ≤ 1 - max 0 (min 1 p) := by
        have := clamp01_le_one p
        linarith
      nlinarith [mul_le_mul_of_nonneg_left h h1c]
  · intro p w l f₁ f₂ h
    rw [calculate_ev_eq, calculate_ev_eq]
    split_ifs with hwl
    · exact le_refl ⊥
    · rw [WithBot.coe_le_coe]
      linarith

/-- C6 witness: EV at probability 0 is at most EV at probability 1 for
win 1, loss 1, friction 0. -/
theorem calculate_ev_monotone_witness :
    calculate_ev 0 1 1 0 ≤ calculate_ev 1 1 1 0 :=
  calculate_ev_monotone.1 1 1 0 0 1 (by norm_num)

/-- C3 counterexample: the claim covers both cited exit evaluators, but
`ExitDetector.check_all_exits` — the one the live loop invokes — has no
regime-reversal trigger at all: a position whose regime has flipped to
NO_TRADE while the price (100 = entry) triggers neither stop loss nor
take profit is closed with REGIME_CHANGE by `ExitLogic.check_exits` but
is not closed by `ExitDetector.check_all_exits`. -/
theorem check_all_exits_no_regime_trigger :
    check_exits (fun sym => if sym = "ETH" then some 100 else none)
      (fun _ => some "NO_TRADE")
      [⟨some "p1", some "ETH", some 100, some (1/100), some (1/25)⟩]
      = [⟨some "p1", some "ETH", "REGIME_CHANGE", 100⟩] ∧
    check_all_exits (fun sym => if sym = "ETH" then some 100 else none)
      ⟨[("p1", ⟨some "p1", some "ETH", some 100, some (1/100), some (1/25)⟩)],
        [], 0, none, 0⟩ = [] := by
  constructor
  · norm_num [check_exits, List.filterMap_cons, List.filterMap_nil,
      check_exit_position, sl_trigger, tp_trigger]
  · norm_num [check_all_exits, detector_exit, check_stop_loss, check_take_profit]

/-- C3 amended: `ExitLogic.check_exits` evaluates triggers per position
in the fixed priority stop-loss, take-profit,
regime-reversal-to-NO_TRADE (first match wins), while
`ExitDetector.check_all_exits` evaluates only stop-loss then take-profit
and has no regime-reversal trigger (a position closing on neither emits
nothing, whatever the regime); both emit at most one close action per
position per tick, and for both the action emitted for a position is
independent of every other position.  The claimed instance (entry 100,
sl 1%, tp 4%, price 99 giving STOP_LOSS) holds for both evaluators and
is the witness. -/
theorem exit_evaluators_priority :
    (∀ (prices : String → Option ℚ) (regimes : String → Option String)
       (q : PyPosition) (sym : String) (cp ep : ℚ),
      q.pair = some sym → prices sym = some cp → q.entry_price = some ep →
      sl_trigger q.stop_loss_pct cp ep = true →
      check_exit_position prices regimes q
        = some ⟨q.id, some sym, "STOP_LOSS", cp⟩) ∧
    (∀ (prices : String → Option ℚ) (regimes : String → Option String)
       (q : PyPosition) (sym : String) (cp ep : ℚ),
      q.pair = some sym → prices sym = some cp → q.entry_price = some ep →
      sl_trigger q.stop_loss_pct cp ep = false →
      tp_trigger q.take_profit_pct cp ep = true →
      check_exit_position prices regimes q
        = some ⟨q.id, some sym, "TAKE_PROFIT", cp⟩) ∧
    (∀ (prices : String → Option ℚ) (regimes : String → Option String)
       (q : PyPosition) (sym : String) (cp ep : ℚ),
      q.pair = some sym → prices sym = some cp → q.entry_price = some ep →
      sl_trigger q.stop_loss_pct cp ep = false →
      tp_trigger q.take_profit_pct cp ep = false →
      regimes sym = some "NO_TRADE" →
      check_exit_position prices regimes q
        = some ⟨q.id, some sym, "REGIME_CHANGE", cp⟩) ∧
    (∀ (prices : String → Option ℚ) (regimes : String → Option String)
       (ps₁ ps₂ : List PyPosition) (q : PyPosition),
      check_exits prices regimes (ps₁ ++ q :: ps₂)
        = check_exits prices regimes ps₁
          ++ (check_exit_position prices regimes q).toList
          ++ check_exits prices regimes ps₂) ∧
    (∀ (prices : String → Option ℚ) (regimes : String → Option String)
       (ps : List PyPosition),
      (check_exits prices regimes ps).length ≤ ps.length) ∧
    (∀ (prices : String → Option ℚ) (q : PyPosition) (sym : String) (cp ep s : ℚ),
      q.pair = some sym → prices sym = some cp → q.entry_price = some ep →
      q.stop_loss_pct = some s → cp ≤ ep * (1 - s) →
      detector_exit prices q = some ⟨q.id, some sym, "STOP_LOSS", cp⟩) ∧
    (∀ (prices : String → Option ℚ) (q : PyPosition) (sym : String) (cp ep t : ℚ),
      q.pair = some sym → prices sym = some cp →
      check_stop_loss q cp = none →
      q.entry_price = some ep → q.take_profit_pct = some t →
      ep * (1 + t) ≤ cp →
      detector_exit prices q = some ⟨q.id, some sym, "TAKE_PROFIT", cp⟩) ∧
    (∀ (prices : String → Option ℚ) (q : PyPosition) (sym : String) (cp : ℚ),
      q.pair = some sym → prices sym = some cp →
      check_stop_loss q cp = none → check_take_profit q cp = none →
      detector_exit prices q = none) ∧
    (∀ (prices : String → Option ℚ) (ps₁ ps₂ : List (String × PyPosition))
       (e : String × PyPosition) (cds : List (String × ℚ)) (n : ℕ)
       (lt : Option ℚ) (pnl : ℚ),
      check_all_exits prices ⟨ps₁ ++ e :: ps₂, cds, n, lt, pnl⟩
        = check_all_exits prices ⟨ps₁, cds, n, lt, pnl⟩
          ++ (detector_exit prices e.2).toList
          ++ check_all_exits prices ⟨ps₂, cds, n, lt, pnl⟩) ∧
    (∀ (prices : String → Option ℚ) (st : EngineState),
      (check_all_exits prices st).length ≤ st.open_positions.length) := by
  refine ⟨?_, ?_, ?_, ?_, ?_, ?_, ?_, ?_, ?_, ?_⟩
  · intro prices regimes q sym cp ep hpair hprice hentry hsl
    simp [check_exit_position, hpair, hprice, hentry, hsl]
  · intro prices regimes q sym cp ep hpair hprice hentry hsl htp
    simp [check_exit_position, hpair, hprice, hentry, hsl, htp]
  · intro prices regimes q sym cp ep hpair hprice hentry hsl htp hreg
    simp [check_exit_position, hpair, hprice, hentry, hsl, htp, hreg]
  · intro prices regimes ps₁ ps₂ q
    unfold check_exits
    rw [List.filterMap_append, List.filterMap_cons]
    rcases h : check_exit_position prices regimes q with _ | a <;> simp [h]
  · intro prices regimes ps
    exact List.length_filterMap_le _ _
  · intro prices q sym cp ep s hpair hprice hentry hsl hhit
    simp [detector_exit, check_stop_loss, hpair, hprice, hentry, hsl, hhit]
  · intro prices q sym cp ep t hpair hprice hslnone hentry htp hhit
    simp [detector_exit, check_take_profit, hpair, hprice, hslnone, hentry,
      htp, hhit]
  · intro prices q sym cp hpair hprice hslnone htpnone
    simp [detector_exit, hpair, hprice, hslnone, htpnone]
  · intro prices ps₁ ps₂ e cds n lt pnl
    unfold check_all_exits
    simp only []
    rw [List.filterMap_append, List.filterMap_cons]
    rcases h : detector_exit prices e.2 with _ | a <;> simp [h]
  · intro prices st
    exact List.length_filterMap_le _ _

/-- C3 witness: entry 100, sl 1%, tp 4%, current price 99 — both
evaluators emit STOP_LOSS (and hence not TAKE_PROFIT) for the
position. -/
theorem exit_evaluators_priority_witness :
    check_exit_position
      (fun sym => if sym = "ETH" then some 99 else none) (fun _ => none)
      ⟨some "p1", some "ETH", some 100, some (1/100), some (1/25)⟩
      = some ⟨some "p1", some "ETH", "STOP_LOSS", 99⟩ ∧
    detector_exit (fun sym => if sym = "ETH" then some 99 else none)
      ⟨some "p1", some "ETH", some 100, some (1/100), some (1/25)⟩
      = some ⟨some "p1", some "ETH", "STOP_LOSS", 99⟩ :=
  ⟨exit_evaluators_priority.1 _ _ _ "ETH" 99 100 rfl rfl rfl
    (by norm_num [sl_trigger]),
   exit_evaluators_priority.2.2.2.2.2.1 _ _ "ETH" 99 100 (1/100) rfl rfl rfl rfl
    (by norm_num)⟩

/-- C5: given that every earlier pipeline step succeeds (tradable regime,
features available, the base-friction computation returns), the entry
admission rule is boundary inclusive: a computed EV exactly equal to
`min_ev` emits the open action, while an EV strictly below `min_ev`
yields no action. -/
theorem evaluate_entry_ev_boundary {F : Type}
    (max_risk_per_trade min_position_pct max_position_pct : ℚ)
    (sl_default tp_default min_ev : ℚ)
    (fm : Option (ℚ → ℚ → ℚ → ℚ → Except Unit ℚ)) (predict_edge : F → ℚ)
    (regime : String) (features : Option F) (symbol : String)
    (price : ℚ) (reserves : ℚ × ℚ) (capital volatility : ℚ)
    (f : F) (base_friction size friction : ℚ) (ev : WithBot ℚ)
    (htrade : is_tradable regime = true) (hfeat : features = some f)
    (hsize : size = calculate_position_size max_risk_per_trade min_position_pct
      max_position_pct capital sl_default)
    (hbase : calculate_base_friction size reserves.1 reserves.2 30
      = .ok base_friction)
    (hfr : friction = predict_friction fm size (reserves.1 * price + reserves.2)
      volatility base_friction)
    (hev : ev = calculate_ev_from_sl_tp (predict_edge f) price sl_default
      tp_default size friction) :
    (ev = (min_ev : WithBot ℚ) →
      evaluate_entry max_risk_per_trade min_position_pct max_position_pct
        sl_default tp_default min_ev fm predict_edge regime features symbol
        price reserves capital volatility
        = some ⟨symbol, size, price, sl_default, tp_default, ev,
            predict_edge f, friction, regime⟩) ∧
    (ev < (min_ev : WithBot ℚ) →
      evaluate_entry max_risk_per_trade min_position_pct max_position_pct
        sl_default tp_default min_ev fm predict_edge regime features symbol
        price reserves capital volatility = none) := by
  subst hsize hfr hev hfeat
  constructor
  · intro heq
    simp only [evaluate_entry, htrade, Bool.true_eq_false, if_false, hbase]
    rw [if_neg]
    rw [heq]
    exact lt_irrefl _
  · intro hlt
    simp only [evaluate_entry, htrade, Bool.true_eq_false, if_false, hbase]
    rw [if_pos hlt]

/-- C5 witness: a concrete pipeline run whose EV is exactly `min_ev`
(-440, from size 5000, tp 4%, sl 1%, friction 0.103, p 1/2) is
approved. -/
theorem evaluate_entry_ev_boundary_witness :
    evaluate_entry (1/200) (1/50) (1/20) (1/100) (1/25) (-440) none
      (fun _ : Unit => (1/2 : ℚ)) "TREND" (some ()) "ETH" 1 (0, 0) 100000 0
      = some ⟨"ETH", 5000, 1, 1/100, 1/25, ((-440 : ℚ) : WithBot ℚ), 1/2,
          103/1000, "TREND"⟩ :=
  (evaluate_entry_ev_boundary (1/200) (1/50) (1/20) (1/100) (1/25) (-440) none
    (fun _ : Unit => (1/2 : ℚ)) "TREND" (some ()) "ETH" 1 (0, 0) 100000 0
    () (103/1000) 5000 (103/1000) ((-440 : ℚ) : WithBot ℚ)
    rfl rfl
    (by norm_num [calculate_position_size])
    (by norm_num [calculate_base_friction, calculate_base_slippage, pydiv,
      Except.bind, bind, pure, Except.pure])
    (by norm_num [predict_friction])
    (by norm_num [calculate_ev_from_sl_tp, calculate_ev, predict_friction])).1 rfl

/-- C7 counterexample: with a position whose entry price is 0 (and ample
balance) the open succeeds but the close raises ZeroDivisionError while
computing `pnl_pct = exit_price/entry_price - 1`, so the round trip does
not yield `pnl = 0`: it yields an error. -/
theorem sim_round_trip_zero_entry_raises :
    (execute_open false (SimulatedState.init 100)
      ⟨"ETH", 10, 0, 1/100, 1/25, none, none, none, none⟩ (1, 1) "p1").1
      = .ok true ∧
    (execute_close false (execute_open false (SimulatedState.init 100)
        ⟨"ETH", 10, 0, 1/100, 1/25, none, none, none, none⟩ (1, 1) "p1").2
      ⟨"p1", "ETH", "STOP_LOSS", 0⟩ (1, 1)).1 = .error () := by
  constructor
  · rfl
  · rfl

/-- C7 amended: for any starting state and any open action whose size is
covered by the balance and whose entry price is nonzero, opening with
slippage disabled and then closing at `exit_price = entry_price` yields
a trade with `pnl = 0` and restores the balance to its pre-open value. -/
theorem sim_round_trip (s : SimulatedState) (action : SimOpenAction)
    (reserves : ℚ × ℚ) (position_id cpair creason : String)
    (hbal : action.size ≤ s.balance) (hentry : action.entry_price ≠ 0) :
    (execute_open false s action reserves position_id).1 = .ok true ∧
    ∃ trade : SimTrade,
      (execute_close false (execute_open false s action reserves position_id).2
        ⟨position_id, cpair, creason, action.entry_price⟩ reserves).1
        = .ok (some trade) ∧
      trade.pnl = 0 ∧
      (execute_close false (execute_open false s action reserves position_id).2
        ⟨position_id, cpair, creason, action.entry_price⟩ reserves).2.balance
        = s.balance := by
  have hopen : execute_open false s action reserves position_id
      = (.ok true, add_position s position_id
          ⟨position_id, action.pair, action.entry_price, action.size,
           action.stop_loss_pct, action.take_profit_pct, action.ev, action.p,
           action.regime⟩) := by
    unfold execute_open
    rw [if_neg (not_lt.mpr hbal)]
    rfl
  rw [hopen]
  refine ⟨rfl, ?_⟩
  simp only [execute_close, if_false, Bool.false_eq_true]
  rw [close_position]
  simp only [add_position, dictGet_dictSet]
  rw [pydiv, if_neg hentry]
  refine ⟨_, rfl, by ring, ?_⟩
  simp only []
  ring

/-- C7 witness: balance 100, size 10, entry price 2; the round trip
returns a zero-PnL trade and the balance 100. -/
theorem sim_round_trip_witness :
    (execute_open false (SimulatedState.init 100)
      ⟨"ETH", 10, 2, 1/100, 1/25, none, none, none, none⟩ (1, 1) "p1").1
      = .ok true ∧
    ∃ trade : SimTrade,
      (execute_close false (execute_open false (SimulatedState.init 100)
          ⟨"ETH", 10, 2, 1/100, 1/25, none, none, none, none⟩ (1, 1) "p1").2
        ⟨"p1", "ETH", "TAKE_PROFIT", 2⟩ (1, 1)).1 = .ok (some trade) ∧
      trade.pnl = 0 ∧
      (execute_close false (execute_open false (SimulatedState.init 100)
          ⟨"ETH", 10, 2, 1/100, 1/25, none, none, none, none⟩ (1, 1) "p1").2
        ⟨"p1", "ETH", "TAKE_PROFIT", 2⟩ (1, 1)).2.balance = 100 :=
  sim_round_trip (SimulatedState.init 100)
    ⟨"ETH", 10, 2, 1/100, 1/25, none, none, none, none⟩ (1, 1) "p1" "ETH"
    "TAKE_PROFIT" (by norm_num [SimulatedState.init]) (by norm_num)

/-- C10 counterexample: the conservation equation does not hold for
every sequence of operations.  First sequence: `add_position` with an id
that is already open overwrites the stored position while still
subtracting the full new size, leaving 90 ≠ 100.  Second sequence:
closing a position whose entry price is 0 raises between the pop and the
balance update, leaving 90 ≠ 100. -/
theorem sim_invariant_not_universal :
    ¬ sim_invariant (applyOps (SimulatedState.init 100)
      [.add "a" ⟨"a", "ETH", 1, 10, 0, 0, none, none, none⟩,
       .add "a" ⟨"a", "ETH", 1, 20, 0, 0, none, none, none⟩]) ∧
    ¬ sim_invariant (applyOps (SimulatedState.init 100)
      [.add "b" ⟨"b", "ETH", 0, 10, 0, 0, none, none, none⟩,
       .close "b" 0]) := by
  constructor
  · norm_num [sim_invariant, applyOps, applyOp, add_position, close_position,
      SimulatedState.init, dictSet, dictGet, dictRemove, sumOpenSizes,
      List.foldl, pydiv]
  · norm_num [sim_invariant, applyOps, applyOp, add_position, close_position,
      SimulatedState.init, dictSet, dictGet, dictRemove, sumOpenSizes,
      List.foldl, pydiv]

/-- One admissible operation preserves the conservation equation and the
all-entries-nonzero side invariant. -/
theorem sim_step (s : SimulatedState) (op : SimOp)
    (hinv : sim_invariant s) (hnz : entriesNonzero s)
    (hok : okOp s op = true) :
    sim_invariant (applyOp s op) ∧ entriesNonzero (applyOp s op) := by
  cases op with
  | add pid pos =>
    simp only [okOp, Bool.and_eq_true, decide_eq_true_eq] at hok
    obtain ⟨hfresh, hnz0⟩ := hok
    simp only [applyOp, add_position]
    rw [dictSet_of_fresh pos hfresh]
    constructor
    · unfold sim_invariant at hinv ⊢
      simp only [sumOpenSizes, List.map_append, List.sum_append, List.map_cons,
        List.map_nil, List.sum_cons, List.sum_nil] at hinv ⊢
      linarith
    · intro e he
      rcases List.mem_append.mp he with h | h
      · exact hnz e h
      · simp at h
        rw [h]
        exact hnz0
  | close pid ep =>
    simp only [applyOp]
    rcases hget : dictGet s.open_positions pid with _ | pos
    · rw [close_position, hget]
      exact ⟨hinv, hnz⟩
    · rw [close_position, hget]
      have hpos : (pid, pos) ∈ s.open_positions := dictGet_mem hget
      have hne : pos.entry_price ≠ 0 := hnz (pid, pos) hpos
      simp only [pydiv, if_neg hne]
      constructor
      · unfold sim_invariant at hinv ⊢
        simp only []
        rw [sumOpenSizes_dictRemove hget]
        linarith
      · intro e he
        simp only [] at he
        exact hnz e (mem_dictRemove he)

/-- An admissible sequence of operations preserves the conservation
equation and the nonzero-entry side invariant. -/
theorem sim_invariant_ops (ops : List SimOp) :
    ∀ s : SimulatedState, sim_invariant s → entriesNonzero s →
      okOps s ops = true →
      sim_invariant (applyOps s ops) ∧ entriesNonzero (applyOps s ops) := by
  induction ops with
  | nil => intro s h1 h2 _; exact ⟨h1, h2⟩
  | cons op rest ih =>
    intro s h1 h2 hok
    simp only [okOps, Bool.and_eq_true] at hok
    obtain ⟨ho, hrest⟩ := hok
    have hstep := sim_step s op h1 h2 ho
    have := ih (applyOp s op) hstep.1 hstep.2 hrest
    simpa [applyOps, List.foldl] using this

/-- Admissibility of a sequence restricts to admissibility of any
leading part of it. -/
theorem okOps_append_left {ops₁ ops₂ : List SimOp} :
    ∀ s : SimulatedState, okOps s (ops₁ ++ ops₂) = true → okOps s ops₁ = true := by
  induction ops₁ with
  | nil => intro s _; rfl
  | cons op rest ih =>
    intro s h
    simp only [List.cons_append, okOps, Bool.and_eq_true] at h ⊢
    exact ⟨h.1, ih _ h.2⟩

/-- C10 amended: starting from `initial_balance`, the equation
`balance + Σ(open sizes) - total_pnl = initial_balance` holds after each
operation of any sequence of `add_position`/`close_position` calls in
which every add uses an id that is not currently open and a position
with nonzero entry price (the two conditions the counterexample shows to
be necessary). -/
theorem sim_invariant_preserved (b : ℚ) (ops₁ ops₂ : List SimOp)
    (h : okOps (SimulatedState.init b) (ops₁ ++ ops₂) = true) :
    sim_invariant (applyOps (SimulatedState.init b) ops₁) := by
  have h1 : sim_invariant (SimulatedState.init b) := by
    simp [sim_invariant, SimulatedState.init, sumOpenSizes]
  have h2 : entriesNonzero (SimulatedState.init b) := by
    intro e he
    simp [SimulatedState.init] at he
  exact (sim_invariant_ops ops₁ (SimulatedState.init b) h1 h2
    (okOps_append_left _ h)).1

/-- C10 witness: open then close one position with nonzero entry price;
the conservation equation holds afterwards. -/
theorem sim_invariant_preserved_witness :
    sim_invariant (applyOps (SimulatedState.init 100)
      [.add "a" ⟨"a", "ETH", 1, 10, 0, 0, none, none, none⟩,
       .close "a" 2]) :=
  sim_invariant_preserved 100
    [.add "a" ⟨"a", "ETH", 1, 10, 0, 0, none, none, none⟩, .close "a" 2] []
    (by norm_num [okOps, okOp, applyOp, add_position, SimulatedState.init,
      dictGet, dictSet, close_position, pydiv, dictRemove])
